import Mathlib

/-!
Shallow embedding of `src/server.js` (dexcom-connect-llm): a single-file
Express backend that stores one OAuth token record in a Postgres table,
refreshes it when expired, and serves glucose / trends / charts endpoints.

Modelling choices:
* The `tokens` table (`id INTEGER PRIMARY KEY, access_token TEXT,
  refresh_token TEXT, expires_at BIGINT`) is a `List Row`; columns are
  nullable, hence `Option` fields.  The upsert of `saveTokens` and the
  `SELECT ... WHERE id = 1` of `getTokens` are transcribed directly.
* JS numbers that matter here are epoch milliseconds and glucose values;
  they are modelled as `Int` respectively `ℚ`.  The JS float special
  values produced by the trends computation on an empty list (0/0 = NaN,
  `Math.max()` = -Infinity, `Math.min()` = Infinity) are modelled by the
  `JVal` type with explicit `nan` / `negInf` / `posInf` constructors.
* Outcomes of `axios` calls (token endpoint, egvs endpoint) and of the
  chart renderer are handler parameters of type `Except String _`:
  `Except.error` is a thrown JS exception caught by the handler's
  `catch` block.
* `Date.now()` is a parameter `now : Int` (non-concurrent, single
  instant per request, as the spec's testable properties assume).
-/

namespace DexcomConnect

/-- One row of the `tokens` table. All data columns are nullable. -/
structure Row where
  id : Int
  access_token : Option String
  refresh_token : Option String
  expires_at : Option Int
deriving DecidableEq

/-- The argument object passed to `saveTokens` (fields may be `undefined`
in JS, hence `Option`). -/
structure TokenData where
  access_token : Option String
  refresh_token : Option String
  expires_at : Option Int
deriving DecidableEq

/-- The row that the upsert of `saveTokens` writes: fixed id 1 and the
three token columns. -/
def tokenRow (t : TokenData) : Row :=
  { id := 1
    access_token := t.access_token
    refresh_token := t.refresh_token
    expires_at := t.expires_at }

/-- Database effect of `saveTokens`: `INSERT INTO tokens (id, ...) VALUES
(1, $1, $2, $3) ON CONFLICT (id) DO UPDATE SET access_token = $1,
refresh_token = $2, expires_at = $3`. -/
def saveTokensDb (db : List Row) (t : TokenData) : List Row :=
  if db.any (fun r => r.id == 1) then
    db.map (fun r =>
      if r.id == 1 then
        { r with
            access_token := t.access_token
            refresh_token := t.refresh_token
            expires_at := t.expires_at }
      else r)
  else
    db ++ [tokenRow t]

/-- `saveTokens` returns the affected row (`RETURNING *`, `result.rows[0]`)
together with the updated table. -/
def saveTokens (db : List Row) (t : TokenData) : List Row × Row :=
  (saveTokensDb db t, tokenRow t)

/-- `getTokens`: `SELECT * FROM tokens WHERE id = 1`, `result.rows[0] || null`. -/
def getTokens (db : List Row) : Option Row :=
  db.find? (fun r => r.id == 1)

/-- JS truthiness of a nullable string: `null`/`undefined` and the empty
string are falsy. -/
def jsTruthy : Option String → Bool
  | none => false
  | some s => !s.isEmpty

/-- Numeric coercion applied by the JS comparison `Date.now() >
tokens.expires_at` when the column is NULL (`null` coerces to 0). -/
def jsNumOrZero : Option Int → Int
  | none => 0
  | some v => v

/-- A successful response body of the upstream token endpoint. -/
structure RefreshResponse where
  access_token : String
  refresh_token : String
  expires_in : Int
deriving DecidableEq

/-- `refreshToken`: loads the stored record, throws `'No refresh token
available'` when `!tokens?.refresh_token`, otherwise exchanges the refresh
token at the upstream token endpoint (outcome `tokenEndpoint`), builds
`newTokens` with `expires_at = Date.now() + expires_in * 1000`, saves it,
and returns the saved row.  Returns (thrown-or-result, final table). -/
def refreshToken (db : List Row) (now : Int)
    (tokenEndpoint : Except String RefreshResponse) :
    Except String Row × List Row :=
  let tokens := getTokens db
  if jsTruthy (tokens.bind Row.refresh_token) then
    match tokenEndpoint with
    | Except.error e => (Except.error e, db)
    | Except.ok resp =>
        let newTokens : TokenData :=
          { access_token := some resp.access_token
            refresh_token := some resp.refresh_token
            expires_at := some (now + resp.expires_in * 1000) }
        let saved := saveTokens db newTokens
        (Except.ok saved.2, saved.1)
  else
    (Except.error "No refresh token available", db)

/-- A JS number as produced by the trends arithmetic: a finite value or
one of the float special values. -/
inductive JVal where
  | num (q : ℚ)
  | nan
  | posInf
  | negInf
deriving DecidableEq

/-- JS division `a / b` on numbers: division by zero yields NaN (for 0/0)
or a signed infinity. -/
def jsDiv (a b : ℚ) : JVal :=
  if b = 0 then
    if a = 0 then JVal.nan
    else if 0 < a then JVal.posInf
    else JVal.negInf
  else JVal.num (a / b)

/-- `Math.max(...values)`: -Infinity on the empty spread. -/
def jsMaxList : List ℚ → JVal
  | [] => JVal.negInf
  | v :: vs => JVal.num (vs.foldl max v)

/-- `Math.min(...values)`: Infinity on the empty spread. -/
def jsMinList : List ℚ → JVal
  | [] => JVal.posInf
  | v :: vs => JVal.num (vs.foldl min v)

/-- The `analysis` object built by the `/trends` handler. -/
structure Analysis where
  average : JVal
  highest : JVal
  lowest : JVal
  count : Nat
deriving DecidableEq

/-- The trends computation of the `/trends` handler (lines 214-219):
`values.reduce((a, b) => a + b, 0) / values.length`, `Math.max(...values)`,
`Math.min(...values)`, `values.length`. -/
def trendsAnalysis (values : List ℚ) : Analysis :=
  { average := jsDiv (values.foldl (· + ·) 0) values.length
    highest := jsMaxList values
    lowest := jsMinList values
    count := values.length }

/-- One glucose reading record as consumed by the handlers
(`r.value`, `r.systemTime`). -/
structure Reading where
  value : ℚ
  systemTime : String
deriving DecidableEq

/-- One dataset of the Chart.js configuration object. -/
structure Dataset where
  label : String
  data : List ℚ
  borderColor : String
  tension : ℚ
deriving DecidableEq

/-- The Chart.js configuration object built by the `/charts` handler. -/
structure ChartConfiguration where
  ctype : String
  labels : List String
  datasets : List Dataset
deriving DecidableEq

/-- The `configuration` object of the `/charts` handler (lines 249-260);
`localeTime` stands for `s => new Date(s).toLocaleTimeString()`. -/
def chartConfiguration (localeTime : String → String)
    (readings : List Reading) : ChartConfiguration :=
  { ctype := "line"
    labels := readings.map (fun r => localeTime r.systemTime)
    datasets := [{ label := "Glucose Readings"
                   data := readings.map (fun r => r.value)
                   borderColor := "rgb(75, 192, 192)"
                   tension := (1 : ℚ) / 10 }] }

/-- Identifiers bound at module scope of `server.js`: the `const` and
`function` declarations (lines 2-7, 16, 33, 51, 78, 89, 272). -/
def moduleScopeBindings : List String :=
  ["express", "Pool", "axios", "cors", "app", "pool",
   "initializeDatabase", "saveTokens", "getTokens", "refreshToken", "PORT"]

/-- Standard JS global bindings visible in a Node module body. -/
def jsGlobalBindings : List String :=
  ["require", "module", "exports", "process", "console",
   "Math", "Date", "JSON", "Promise", "Error"]

/-- An identifier resolves iff it is a module-scope binding or a global;
otherwise evaluating it throws a ReferenceError. -/
def identifierDefined (name : String) : Bool :=
  moduleScopeBindings.contains name || jsGlobalBindings.contains name

/-- Response bodies produced by the handlers. -/
inductive RespBody where
  | errorMsg (msg : String)
  | records (rs : List Reading)
  | analysis (a : Analysis)
  | png (bytes : List Nat)
deriving DecidableEq

/-- An HTTP response: status code and body. -/
structure Resp where
  status : Nat
  body : RespBody
deriving DecidableEq

/-- Observable calls a data-fetch handler makes: an invocation of
`refreshToken` and the upstream egvs data request. -/
inductive Ev where
  | refresh
  | upstreamData
deriving DecidableEq

/-- Result of running a handler: the HTTP response, the ordered trace of
external calls, and the final state of the token table. -/
structure HandlerOut where
  resp : Resp
  events : List Ev
  db : List Row
deriving DecidableEq

/-- The `GET /glucose` handler (lines 149-175): load tokens, 401 when
`!tokens?.access_token`, refresh when `Date.now() > tokens.expires_at`,
then fetch egvs records; any thrown error is caught and yields 500. -/
def glucoseHandler (db : List Row) (now : Int)
    (tokenEndpoint : Except String RefreshResponse)
    (egvsEndpoint : Except String (List Reading)) : HandlerOut :=
  match getTokens db with
  | none =>
      { resp := { status := 401
                  body := RespBody.errorMsg "Not authorized. Please complete OAuth flow first." }
        events := [], db := db }
  | some tokens =>
      if jsTruthy tokens.access_token then
        if now > jsNumOrZero tokens.expires_at then
          match refreshToken db now tokenEndpoint with
          | (Except.error _, db2) =>
              { resp := { status := 500, body := RespBody.errorMsg "Failed to fetch glucose data" }
                events := [Ev.refresh], db := db2 }
          | (Except.ok _, db2) =>
              match egvsEndpoint with
              | Except.error _ =>
                  { resp := { status := 500, body := RespBody.errorMsg "Failed to fetch glucose data" }
                    events := [Ev.refresh, Ev.upstreamData], db := db2 }
              | Except.ok records =>
                  { resp := { status := 200, body := RespBody.records records }
                    events := [Ev.refresh, Ev.upstreamData], db := db2 }
        else
          match egvsEndpoint with
          | Except.error _ =>
              { resp := { status := 500, body := RespBody.errorMsg "Failed to fetch glucose data" }
                events := [Ev.upstreamData], db := db }
          | Except.ok records =>
              { resp := { status := 200, body := RespBody.records records }
                events := [Ev.upstreamData], db := db }
      else
        { resp := { status := 401
                    body := RespBody.errorMsg "Not authorized. Please complete OAuth flow first." }
          events := [], db := db }

/-- The `GET /trends` handler (lines 194-226): same token sequence as
`/glucose`, then the trends computation over `readings.map(r => r.value)`. -/
def trendsHandler (db : List Row) (now : Int)
    (tokenEndpoint : Except String RefreshResponse)
    (egvsEndpoint : Except String (List Reading)) : HandlerOut :=
  match getTokens db with
  | none =>
      { resp := { status := 401, body := RespBody.errorMsg "Not authorized" }
        events := [], db := db }
  | some tokens =>
      if jsTruthy tokens.access_token then
        if now > jsNumOrZero tokens.expires_at then
          match refreshToken db now tokenEndpoint with
          | (Except.error _, db2) =>
              { resp := { status := 500, body := RespBody.errorMsg "Failed to analyze trends" }
                events := [Ev.refresh], db := db2 }
          | (Except.ok _, db2) =>
              match egvsEndpoint with
              | Except.error _ =>
                  { resp := { status := 500, body := RespBody.errorMsg "Failed to analyze trends" }
                    events := [Ev.refresh, Ev.upstreamData], db := db2 }
              | Except.ok readings =>
                  { resp := { status := 200
                              body := RespBody.analysis (trendsAnalysis (readings.map (fun r => r.value))) }
                    events := [Ev.refresh, Ev.upstreamData], db := db2 }
        else
          match egvsEndpoint with
          | Except.error _ =>
              { resp := { status := 500, body := RespBody.errorMsg "Failed to analyze trends" }
                events := [Ev.upstreamData], db := db }
          | Except.ok readings =>
              { resp := { status := 200
                          body := RespBody.analysis (trendsAnalysis (readings.map (fun r => r.value))) }
                events := [Ev.upstreamData], db := db }
      else
        { resp := { status := 401, body := RespBody.errorMsg "Not authorized" }
          events := [], db := db }

/-- Chart generation step of the `/charts` handler (lines 247-262):
evaluating `new ChartJSNodeCanvas(...)` first resolves the identifier
`ChartJSNodeCanvas`; if it is not bound this throws a ReferenceError,
otherwise `renderToBuffer(configuration)` (modelled by `render`) runs. -/
def chartsRenderStep (render : ChartConfiguration → Except String (List Nat))
    (localeTime : String → String) (readings : List Reading) :
    Except String (List Nat) :=
  if identifierDefined "ChartJSNodeCanvas" then
    render (chartConfiguration localeTime readings)
  else
    Except.error "ReferenceError: ChartJSNodeCanvas is not defined"

/-- The `GET /charts` handler (lines 229-269): same token sequence, then
the chart generation step; on success responds 200 with `image/png` bytes,
on any thrown error responds 500. -/
def chartsHandler (db : List Row) (now : Int)
    (tokenEndpoint : Except String RefreshResponse)
    (egvsEndpoint : Except String (List Reading))
    (render : ChartConfiguration → Except String (List Nat))
    (localeTime : String → String) : HandlerOut :=
  match getTokens db with
  | none =>
      { resp := { status := 401, body := RespBody.errorMsg "Not authorized" }
        events := [], db := db }
  | some tokens =>
      if jsTruthy tokens.access_token then
        if now > jsNumOrZero tokens.expires_at then
          match refreshToken db now tokenEndpoint with
          | (Except.error _, db2) =>
              { resp := { status := 500, body := RespBody.errorMsg "Failed to generate chart" }
                events := [Ev.refresh], db := db2 }
          | (Except.ok _, db2) =>
              match egvsEndpoint with
              | Except.error _ =>
                  { resp := { status := 500, body := RespBody.errorMsg "Failed to generate chart" }
                    events := [Ev.refresh, Ev.upstreamData], db := db2 }
              | Except.ok readings =>
                  match chartsRenderStep render localeTime readings with
                  | Except.error _ =>
                      { resp := { status := 500, body := RespBody.errorMsg "Failed to generate chart" }
                        events := [Ev.refresh, Ev.upstreamData], db := db2 }
                  | Except.ok bytes =>
                      { resp := { status := 200, body := RespBody.png bytes }
                        events := [Ev.refresh, Ev.upstreamData], db := db2 }
        else
          match egvsEndpoint with
          | Except.error _ =>
              { resp := { status := 500, body := RespBody.errorMsg "Failed to generate chart" }
                events := [Ev.upstreamData], db := db }
          | Except.ok readings =>
              match chartsRenderStep render localeTime readings with
              | Except.error _ =>
                  { resp := { status := 500, body := RespBody.errorMsg "Failed to generate chart" }
                    events := [Ev.upstreamData], db := db }
              | Except.ok bytes =>
                  { resp := { status := 200, body := RespBody.png bytes }
                    events := [Ev.upstreamData], db := db }
      else
        { resp := { status := 401, body := RespBody.errorMsg "Not authorized" }
          events := [], db := db }

end DexcomConnect
namespace DexcomConnect

/-- A stored, unexpired, complete token row (fixture). -/
def rowA : Row :=
  { id := 1, access_token := some "at", refresh_token := some "rt", expires_at := some 100 }

/-- A store holding exactly `rowA` (fixture). -/
def dbA : List Row := [rowA]

/-- A stored row whose access token is present but expired, with no
refresh token (fixture). -/
def rowExpiredNoRefresh : Row :=
  { id := 1, access_token := some "at", refresh_token := none, expires_at := some 0 }

/-- A store holding exactly `rowExpiredNoRefresh` (fixture). -/
def dbExpiredNoRefresh : List Row := [rowExpiredNoRefresh]

/-- A successful token-endpoint response (fixture). -/
def respA : RefreshResponse :=
  { access_token := "na", refresh_token := "nr", expires_in := 600 }

/-- Reading the store back after a save always finds the saved record. -/
theorem getTokens_saveTokensDb (db : List Row) (t : TokenData) :
    getTokens (saveTokensDb db t) = some (tokenRow t) := by
  by_cases hany : db.any (fun r => r.id == 1) = true
  · unfold saveTokensDb getTokens
    rw [if_pos hany]
    induction db with
    | nil => simp at hany
    | cons r rest ih =>
        rw [List.map_cons]
        by_cases hr : r.id = 1
        · rw [List.find?_cons_of_pos _ (by simp [hr])]
          simp [hr, tokenRow]
        · rw [List.find?_cons_of_neg _ (by simp [hr])]
          exact ih (by simpa [List.any_cons, hr] using hany)
  · unfold saveTokensDb getTokens
    rw [if_neg hany, List.find?_append]
    have h1 : db.find? (fun r => r.id == 1) = none := by
      rw [List.find?_eq_none]
      intro x hx hpx
      exact hany (List.any_eq_true.mpr ⟨x, hx, hpx⟩)
    rw [h1]
    simp [tokenRow]

/-- The store invariant: empty, or exactly the one fixed-identity record. -/
def singleRecord (db : List Row) : Prop :=
  db = [] ∨ ∃ t : TokenData, db = [tokenRow t]

/-- A save preserves the single-record invariant. -/
theorem singleRecord_save (db : List Row) (t : TokenData)
    (h : singleRecord db) : singleRecord (saveTokensDb db t) := by
  rcases h with h | ⟨s, h⟩ <;> subst h
  · exact Or.inr ⟨t, rfl⟩
  · refine Or.inr ⟨t, ?_⟩
    simp [saveTokensDb, tokenRow]

/-- Any sequence of saves preserves the single-record invariant. -/
theorem singleRecord_foldl (ts : List TokenData) (db : List Row)
    (h : singleRecord db) : singleRecord (List.foldl saveTokensDb db ts) := by
  induction ts generalizing db with
  | nil => simpa using h
  | cons t rest ih => exact ih _ (singleRecord_save db t h)

/-- C7: the trends computation on the reading values [100, 150, 200]
yields exactly average 150, highest 200, lowest 100, count 3. -/
theorem c7_trends_example :
    trendsAnalysis [100, 150, 200] =
      { average := JVal.num 150, highest := JVal.num 200,
        lowest := JVal.num 100, count := 3 } := by
  simp [trendsAnalysis, jsDiv, jsMaxList, jsMinList]
  norm_num

/-- C1 (refuting the claimed guard): on an empty reading set the trends
computation is unguarded: the average is the JS division 0/0, i.e. NaN,
the highest is the empty `Math.max()`, i.e. -Infinity, the lowest is the
empty `Math.min()`, i.e. Infinity, and the trends handler serves exactly
this unguarded value with status 200. -/
theorem c1_trends_empty_unguarded :
    trendsAnalysis [] =
      { average := JVal.nan, highest := JVal.negInf,
        lowest := JVal.posInf, count := 0 } ∧
    (trendsHandler dbA 50 (Except.ok respA) (Except.ok [])).resp =
      { status := 200
        body := RespBody.analysis
          { average := JVal.nan, highest := JVal.negInf,
            lowest := JVal.posInf, count := 0 } } :=
  ⟨by simp [trendsAnalysis, jsDiv, jsMaxList, jsMinList], by decide⟩

/-- C2 (refuting the claimed 200/PNG response): the identifier
`ChartJSNodeCanvas` is not bound anywhere in the module, so even with a
stored unexpired token, a successful upstream readings response, and a
renderer that would succeed, the charts handler throws a ReferenceError
and lands in the 500 error branch. -/
theorem c2_charts_reference_error :
    identifierDefined "ChartJSNodeCanvas" = false ∧
    (chartsHandler dbA 50 (Except.ok respA)
        (Except.ok [{ value := 120, systemTime := "2023-01-01T08:00:00" }])
        (fun _ => Except.ok [137, 80, 78, 71]) (fun s => s)).resp =
      { status := 500, body := RespBody.errorMsg "Failed to generate chart" } :=
  ⟨by decide, by rfl⟩

/-- C3 counterexample: with a stored access token that is expired and no
stored refresh token, the glucose handler responds 500, not 401. -/
theorem c3_counterexample :
    (glucoseHandler dbExpiredNoRefresh 1 (Except.ok respA) (Except.ok [])).resp.status = 500 ∧
    ¬ (glucoseHandler dbExpiredNoRefresh 1 (Except.ok respA) (Except.ok [])).resp.status = 401 :=
  ⟨by rfl, by decide⟩

/-- C3 amended: for every data-fetch handler, expired credentials whose
refresh fails (for any reason, e.g. no stored refresh token) yield a 500
response: the refresh error is caught by the catch-all, and 401 is
reserved for a missing stored access token. -/
theorem c3_amended (db : List Row) (now : Int)
    (tokenEndpoint : Except String RefreshResponse)
    (egvsEndpoint : Except String (List Reading))
    (render : ChartConfiguration → Except String (List Nat))
    (localeTime : String → String) (tokens : Row)
    (hget : getTokens db = some tokens)
    (hat : jsTruthy tokens.access_token = true)
    (hexp : now > jsNumOrZero tokens.expires_at)
    (hfail : ∃ e, (refreshToken db now tokenEndpoint).1 = Except.error e) :
    (glucoseHandler db now tokenEndpoint egvsEndpoint).resp.status = 500 ∧
    (trendsHandler db now tokenEndpoint egvsEndpoint).resp.status = 500 ∧
    (chartsHandler db now tokenEndpoint egvsEndpoint render localeTime).resp.status = 500 := by
  obtain ⟨e, he⟩ := hfail
  rcases hRT : refreshToken db now tokenEndpoint with ⟨res, db2⟩
  rw [hRT] at he
  simp only at he
  subst he
  refine ⟨?_, ?_, ?_⟩ <;>
    simp [glucoseHandler, trendsHandler, chartsHandler, hget, hat, hexp, hRT]

/-- C3 amended, witness at a concrete expired store with no refresh token. -/
theorem c3_amended_witness :
    (glucoseHandler dbExpiredNoRefresh 1 (Except.ok respA) (Except.error "x")).resp.status = 500 ∧
    (trendsHandler dbExpiredNoRefresh 1 (Except.ok respA) (Except.error "x")).resp.status = 500 ∧
    (chartsHandler dbExpiredNoRefresh 1 (Except.ok respA) (Except.error "x")
        (fun _ => Except.ok []) (fun s => s)).resp.status = 500 :=
  c3_amended dbExpiredNoRefresh 1 (Except.ok respA) (Except.error "x")
    (fun _ => Except.ok []) (fun s => s) rowExpiredNoRefresh rfl rfl
    (by decide) ⟨"No refresh token available", rfl⟩

end DexcomConnect
namespace DexcomConnect

/-- The refresh policy a data-fetch handler must follow when a truthy
access token is stored: when expired, exactly one refresh happens and it
happens first (hence before any upstream data call); when not expired, no
refresh call is made. -/
def refreshPolicy (expired : Prop) [Decidable expired] (evs : List Ev) : Prop :=
  if expired then ∃ rest, evs = Ev.refresh :: rest ∧ Ev.refresh ∉ rest
  else Ev.refresh ∉ evs

/-- C4: each data-fetch handler (glucose, trends, charts), run with a
stored truthy access token, invokes the token refresher exactly once and
before the upstream data call when now is past expires_at, and never
invokes it when expires_at is not past. -/
theorem c4_refresh_policy (db : List Row) (now : Int)
    (tokenEndpoint : Except String RefreshResponse)
    (egvsEndpoint : Except String (List Reading))
    (render : ChartConfiguration → Except String (List Nat))
    (localeTime : String → String) (tokens : Row)
    (hget : getTokens db = some tokens)
    (hat : jsTruthy tokens.access_token = true) :
    refreshPolicy (now > jsNumOrZero tokens.expires_at)
      (glucoseHandler db now tokenEndpoint egvsEndpoint).events ∧
    refreshPolicy (now > jsNumOrZero tokens.expires_at)
      (trendsHandler db now tokenEndpoint egvsEndpoint).events ∧
    refreshPolicy (now > jsNumOrZero tokens.expires_at)
      (chartsHandler db now tokenEndpoint egvsEndpoint render localeTime).events := by
  by_cases hexp : now > jsNumOrZero tokens.expires_at
  · rcases hRT : refreshToken db now tokenEndpoint with ⟨res, db2⟩
    refine ⟨?_, ?_, ?_⟩ <;> rw [refreshPolicy, if_pos hexp]
    · cases res with
      | error e =>
          exact ⟨[], by simp [glucoseHandler, hget, hat, hexp, hRT], by simp⟩
      | ok row =>
          cases egvsEndpoint with
          | error e =>
              exact ⟨[Ev.upstreamData], by simp [glucoseHandler, hget, hat, hexp, hRT], by simp⟩
          | ok rs =>
              exact ⟨[Ev.upstreamData], by simp [glucoseHandler, hget, hat, hexp, hRT], by simp⟩
    · cases res with
      | error e =>
          exact ⟨[], by simp [trendsHandler, hget, hat, hexp, hRT], by simp⟩
      | ok row =>
          cases egvsEndpoint with
          | error e =>
              exact ⟨[Ev.upstreamData], by simp [trendsHandler, hget, hat, hexp, hRT], by simp⟩
          | ok rs =>
              exact ⟨[Ev.upstreamData], by simp [trendsHandler, hget, hat, hexp, hRT], by simp⟩
    · cases res with
      | error e =>
          exact ⟨[], by simp [chartsHandler, hget, hat, hexp, hRT], by simp⟩
      | ok row =>
          cases egvsEndpoint with
          | error e =>
              exact ⟨[Ev.upstreamData], by simp [chartsHandler, hget, hat, hexp, hRT], by simp⟩
          | ok rs =>
              cases hCR : chartsRenderStep render localeTime rs with
              | error e =>
                  exact ⟨[Ev.upstreamData],
                    by simp [chartsHandler, hget, hat, hexp, hRT, hCR], by simp⟩
              | ok bs =>
                  exact ⟨[Ev.upstreamData],
                    by simp [chartsHandler, hget, hat, hexp, hRT, hCR], by simp⟩
  · refine ⟨?_, ?_, ?_⟩ <;> rw [refreshPolicy, if_neg hexp]
    · cases egvsEndpoint <;> simp [glucoseHandler, hget, hat, hexp]
    · cases egvsEndpoint <;> simp [trendsHandler, hget, hat, hexp]
    · cases egvsEndpoint with
      | error e => simp [chartsHandler, hget, hat, hexp]
      | ok rs =>
          cases hCR : chartsRenderStep render localeTime rs <;>
            simp [chartsHandler, hget, hat, hexp, hCR]

/-- C4, witness at a concrete expired store. -/
theorem c4_refresh_policy_witness :
    refreshPolicy ((200 : Int) > jsNumOrZero rowA.expires_at)
      (glucoseHandler dbA 200 (Except.ok respA) (Except.ok [])).events ∧
    refreshPolicy ((200 : Int) > jsNumOrZero rowA.expires_at)
      (trendsHandler dbA 200 (Except.ok respA) (Except.ok [])).events ∧
    refreshPolicy ((200 : Int) > jsNumOrZero rowA.expires_at)
      (chartsHandler dbA 200 (Except.ok respA) (Except.ok [])
        (fun _ => Except.ok []) (fun s => s)).events :=
  c4_refresh_policy dbA 200 (Except.ok respA) (Except.ok [])
    (fun _ => Except.ok []) (fun s => s) rowA rfl rfl

/-- C5: a successful refresh (stored truthy refresh token, successful
upstream exchange reporting lifetime expires_in) returns exactly the new
record with expiry now + expires_in * 1000 milliseconds, and overwrites
the stored record with it. -/
theorem c5_refresh_success (db : List Row) (now : Int) (resp : RefreshResponse)
    (tokens : Row) (hget : getTokens db = some tokens)
    (hrt : jsTruthy tokens.refresh_token = true) :
    refreshToken db now (Except.ok resp) =
      (Except.ok (tokenRow
          { access_token := some resp.access_token
            refresh_token := some resp.refresh_token
            expires_at := some (now + resp.expires_in * 1000) }),
        saveTokensDb db
          { access_token := some resp.access_token
            refresh_token := some resp.refresh_token
            expires_at := some (now + resp.expires_in * 1000) }) ∧
    getTokens (refreshToken db now (Except.ok resp)).2 =
      some (tokenRow
        { access_token := some resp.access_token
          refresh_token := some resp.refresh_token
          expires_at := some (now + resp.expires_in * 1000) }) := by
  constructor
  · unfold refreshToken
    rw [hget]
    simp [hrt, saveTokens]
  · unfold refreshToken
    rw [hget]
    simp only [Option.some_bind, hrt, if_true, saveTokens]
    exact getTokens_saveTokensDb db _

/-- C5, witness at a concrete store and exchange response. -/
theorem c5_refresh_success_witness :
    refreshToken dbA 200 (Except.ok respA) =
      (Except.ok (tokenRow
          { access_token := some respA.access_token
            refresh_token := some respA.refresh_token
            expires_at := some (200 + respA.expires_in * 1000) }),
        saveTokensDb dbA
          { access_token := some respA.access_token
            refresh_token := some respA.refresh_token
            expires_at := some (200 + respA.expires_in * 1000) }) ∧
    getTokens (refreshToken dbA 200 (Except.ok respA)).2 =
      some (tokenRow
        { access_token := some respA.access_token
          refresh_token := some respA.refresh_token
          expires_at := some (200 + respA.expires_in * 1000) }) :=
  c5_refresh_success dbA 200 respA rowA rfl rfl

/-- C6: a glucose request with no stored token record responds 401 with
an error body, not 500. -/
theorem c6_glucose_no_token (db : List Row) (now : Int)
    (tokenEndpoint : Except String RefreshResponse)
    (egvsEndpoint : Except String (List Reading))
    (h : getTokens db = none) :
    (glucoseHandler db now tokenEndpoint egvsEndpoint).resp =
      { status := 401
        body := RespBody.errorMsg "Not authorized. Please complete OAuth flow first." } ∧
    (glucoseHandler db now tokenEndpoint egvsEndpoint).resp.status ≠ 500 := by
  have h1 : (glucoseHandler db now tokenEndpoint egvsEndpoint).resp =
      { status := 401
        body := RespBody.errorMsg "Not authorized. Please complete OAuth flow first." } := by
    simp [glucoseHandler, h]
  exact ⟨h1, by rw [h1]; decide⟩

/-- C6, witness at the empty store. -/
theorem c6_glucose_no_token_witness :
    (glucoseHandler [] 0 (Except.error "e") (Except.error "e")).resp =
      { status := 401
        body := RespBody.errorMsg "Not authorized. Please complete OAuth flow first." } ∧
    (glucoseHandler [] 0 (Except.error "e") (Except.error "e")).resp.status ≠ 500 :=
  c6_glucose_no_token [] 0 (Except.error "e") (Except.error "e") rfl

/-- C8: starting from the empty table, any sequence of saves keeps at
most one record, and a second save overwrites the single fixed-identity
record in place. -/
theorem c8_single_record :
    (∀ ts : List TokenData, (List.foldl saveTokensDb [] ts).length ≤ 1) ∧
    (∀ t1 t2 : TokenData, saveTokensDb (saveTokensDb [] t1) t2 = [tokenRow t2]) := by
  constructor
  · intro ts
    rcases singleRecord_foldl ts [] (Or.inl rfl) with h | ⟨t, h⟩ <;> simp [h]
  · intro t1 t2
    have h1 : saveTokensDb [] t1 = [tokenRow t1] := rfl
    rw [h1]
    simp [saveTokensDb, tokenRow]

/-- C9: storing a token record and loading it back returns exactly the
stored values. -/
theorem c9_round_trip (db : List Row) (t : TokenData) :
    ∃ r : Row, getTokens (saveTokens db t).1 = some r ∧
      r.access_token = t.access_token ∧ r.refresh_token = t.refresh_token ∧
      r.expires_at = t.expires_at :=
  ⟨tokenRow t, getTokens_saveTokensDb db t, rfl, rfl, rfl⟩

/-- C10: a failing refresh (no stored truthy refresh token, or a failing
upstream exchange) raises before any save: it leaves the stored table
unchanged and propagates an error. -/
theorem c10_refresh_failure_atomic (db : List Row) (now : Int)
    (tokenEndpoint : Except String RefreshResponse)
    (h : jsTruthy ((getTokens db).bind Row.refresh_token) = false ∨
         ∃ e, tokenEndpoint = Except.error e) :
    (refreshToken db now tokenEndpoint).2 = db ∧
    ∃ e, (refreshToken db now tokenEndpoint).1 = Except.error e := by
  rcases h with h | ⟨e, rfl⟩
  · unfold refreshToken
    simp [h]
  · unfold refreshToken
    cases hb : jsTruthy ((getTokens db).bind Row.refresh_token) <;> simp [hb]

/-- C10, witness at the empty store. -/
theorem c10_refresh_failure_atomic_witness :
    (refreshToken [] 0 (Except.ok respA)).2 = [] ∧
    ∃ e, (refreshToken [] 0 (Except.ok respA)).1 = Except.error e :=
  c10_refresh_failure_atomic [] 0 (Except.ok respA) (Or.inl rfl)

end DexcomConnect
